import Mathlib

/-!
Verification of the observable-worker call-correlation layer.

This file shallowly embeds the behaviour of `src/wrap.ts` (the caller-side
Remote proxy) and `src/migrating.ts` (the migration layer: `exposeMigrating`,
the `registry` combinator and `observeWebLock`) and proves properties of the
embedded definitions.

Modelling conventions, derived from the rxjs semantics the source relies on:
  - A cold `Observable` created with `new Observable(fn)` runs `fn` once per
    subscription; the teardown returned by `fn` is registered as a finalizer
    on the subscriber and runs when the subscriber is unsubscribed OR when it
    receives a terminal event (error or complete).  If the subscriber is
    already closed when `fn` returns, the teardown runs immediately.
  - `takeUntil(notifier)` mirrors the source until the notifier emits
    (then completes the output) or errors (then errors the output).
  - A completed `Subject` immediately completes any new subscriber.
  - `source.subscribe(subscriber)` with an existing `Subscriber` argument
    chains the source's teardown onto that very subscriber and returns it,
    so unsubscribing the returned subscription runs every finalizer that
    was registered on the subscriber.
Values carried by calls and streams are represented by `Nat`.
-/

namespace ObservableWorker

/-- Call/stream payload values (opaque in the source; `Nat` here). -/
abbrev Val := Nat

/-- A materialized response notification for one correlation id, as carried
by `Response` messages: a value emission, an error, or completion.
(`dematerialize()` in `wrap` turns these back into stream events.) -/
inductive Notification where
  | next (v : Val)
  | error (e : String)
  | complete
deriving DecidableEq, Repr

/-- Request messages sent by `wrap`: kind `"S"` (start, carrying the command
name and argument list) and kind `"U"` (stop/unsubscribe), both carrying the
correlation id.  From `wrap.ts` lines 55-66. -/
inductive Request where
  | start (id : Nat) (command : String) (data : List Val)
  | stop (id : Nat)
deriving DecidableEq, Repr

/-- Events one proxied call's subscription can observe after it is set up:
an inbound response message (for any id; the call filters on its own id),
`close` (the Remote's `close()` completed the `closed` subject), and
`cancel` (the caller unsubscribed this call). -/
inductive CallEvent where
  | resp (id : Nat) (n : Notification)
  | close
  | cancel
deriving DecidableEq, BEq, Repr

/-- Stream events delivered to the caller's subscriber. -/
inductive StreamEvent where
  | next (v : Val)
  | error (e : String)
  | complete
deriving DecidableEq, Repr

/-- Observable per-call state: whether the subscriber is still open, the
requests sent on the connection so far (in order), and the stream events
delivered to the caller so far (in order). -/
structure CallState where
  isOpen : Bool
  sent : List Request
  events : List StreamEvent
deriving DecidableEq, Repr

/-- The error message raised when the remote is closed (`wrap.ts` line 52). -/
def closedError : String := "This remote is closed."

/-- Subscribing one call (`wrap.ts` lines 47-68): subscribe the inner
observable (filtered to this id, dematerialized, taken until `closed`
completes and the concatenated `throwError` errors), then send the Start
message.  If the Remote was already closed, the `closed` subject completes
immediately, so the notifier errors the subscriber synchronously during the
inner subscribe; the Start message is still sent afterwards, and the teardown
(which sends the Stop message) runs immediately because the subscriber is
already closed. -/
def callInit (id : Nat) (command : String) (data : List Val)
    (alreadyClosed : Bool) : CallState :=
  if alreadyClosed then
    { isOpen := false
      sent := [Request.start id command data, Request.stop id]
      events := [StreamEvent.error closedError] }
  else
    { isOpen := true
      sent := [Request.start id command data]
      events := [] }

/-- One step of a call's subscription.  A response with a matching id is
dematerialized into a stream event; an error or completion closes the
subscriber and runs the teardown, which sends the Stop (`"U"`) message.
`close` errors the subscriber with the closed error (via
`takeUntil(closed.pipe(concatWith(throwError(...))))`) and runs the teardown.
`cancel` closes the subscriber silently and runs the teardown.  A closed
subscriber ignores everything. -/
def callStep (id : Nat) (s : CallState) (e : CallEvent) : CallState :=
  if s.isOpen then
    match e with
    | CallEvent.resp rid n =>
      if rid = id then
        match n with
        | Notification.next v =>
            { s with events := s.events ++ [StreamEvent.next v] }
        | Notification.error err =>
            { isOpen := false
              sent := s.sent ++ [Request.stop id]
              events := s.events ++ [StreamEvent.error err] }
        | Notification.complete =>
            { isOpen := false
              sent := s.sent ++ [Request.stop id]
              events := s.events ++ [StreamEvent.complete] }
      else s
    | CallEvent.close =>
        { isOpen := false
          sent := s.sent ++ [Request.stop id]
          events := s.events ++ [StreamEvent.error closedError] }
    | CallEvent.cancel =>
        { isOpen := false
          sent := s.sent ++ [Request.stop id]
          events := s.events }
  else s

/-- The full life of one call subscription: set up, then process a trace of
events. -/
def subscribeCall (id : Nat) (command : String) (data : List Val)
    (alreadyClosed : Bool) (trace : List CallEvent) : CallState :=
  trace.foldl (callStep id) (callInit id command data alreadyClosed)

/-- Number of Stop (`"U"`) messages for a given id in a request list. -/
def countStops (id : Nat) : List Request → Nat
  | [] => 0
  | Request.stop j :: rest => (if j = id then 1 else 0) + countStops id rest
  | Request.start _ _ _ :: rest => countStops id rest

theorem countStops_append (id : Nat) (l₁ l₂ : List Request) :
    countStops id (l₁ ++ l₂) = countStops id l₁ + countStops id l₂ := by
  induction l₁ with
  | nil => simp [countStops]
  | cons r rest ih =>
    cases r with
    | start _ _ _ => simpa [countStops] using ih
    | stop j => simp [countStops, ih]; omega

/-- Invariant relating the Stop count to the subscriber's state. -/
def StopInv (id : Nat) (s : CallState) : Prop :=
  countStops id s.sent = (if s.isOpen then 0 else 1)

theorem callStep_stopInv (id : Nat) (s : CallState) (e : CallEvent)
    (h : StopInv id s) : StopInv id (callStep id s e) := by
  unfold StopInv at h ⊢
  by_cases ho : s.isOpen = true
  · cases e with
    | resp rid n =>
      by_cases hr : rid = id
      · cases n with
        | next v => simpa [callStep, ho, hr, countStops] using h
        | error err =>
          simp [callStep, ho, hr, countStops_append, countStops, h]
        | complete =>
          simp [callStep, ho, hr, countStops_append, countStops, h]
      · simpa [callStep, ho, hr] using h
    | close => simp [callStep, ho, countStops_append, countStops, h]
    | cancel => simp [callStep, ho, countStops_append, countStops, h]
  · have ho' : s.isOpen = false := by
      cases hs : s.isOpen
      · rfl
      · exact absurd hs ho
    simpa [callStep, ho'] using h

theorem foldl_stopInv (id : Nat) (trace : List CallEvent) (s : CallState)
    (h : StopInv id s) : StopInv id (trace.foldl (callStep id) s) := by
  induction trace generalizing s with
  | nil => simpa using h
  | cons e rest ih => exact ih _ (callStep_stopInv id s e h)

/-- A call's sent list always begins with its own Start message. -/
theorem foldl_sent_head (id : Nat) (trace : List CallEvent) (s : CallState)
    (r : Request) (h : s.sent.head? = some r) :
    (trace.foldl (callStep id) s).sent.head? = some r := by
  induction trace generalizing s with
  | nil => simpa using h
  | cons e rest ih =>
    apply ih
    cases hs : s.sent with
    | nil => rw [hs] at h; simp at h
    | cons a l =>
      rw [hs] at h
      simp only [List.head?] at h
      cases ho : s.isOpen with
      | false => simp [callStep, ho, hs, h]
      | true =>
        cases e with
        | resp rid n =>
          by_cases hr : rid = id
          · cases n <;> simp [callStep, ho, hr, hs, h]
          · simp [callStep, ho, hr, hs, h]
        | close => simp [callStep, ho, hs, h]
        | cancel => simp [callStep, ho, hs, h]

/-- A closed subscriber ignores every further event. -/
theorem foldl_closed (id : Nat) (trace : List CallEvent) (s : CallState)
    (h : s.isOpen = false) : trace.foldl (callStep id) s = s := by
  induction trace with
  | nil => rfl
  | cons e rest ih => simpa [callStep, h] using ih

/-- C1 counterexample: a call whose response stream terminates with a
completion notification, with no cancellation anywhere in the trace, still
sends a Stop message (after the Start), because the rxjs teardown returned
from the subscribe function also runs when the subscriber receives a
terminal event.  This refutes the claim that a Stop is sent only if the
caller cancels before the terminal notification and that no Stop is sent
after it. -/
theorem stop_after_terminal_cex :
    (subscribeCall 0 "c" [] false [CallEvent.resp 0 Notification.complete]).sent
      = [Request.start 0 "c" [], Request.stop 0]
    ∧ (subscribeCall 0 "c" [] false [CallEvent.resp 0 Notification.complete]).events
      = [StreamEvent.complete] := by
  constructor <;> rfl

/-- C1 (amended): for every call and every event trace, exactly one Stop
message is sent once the call's subscription has finalized — whether by
caller cancellation, by remote close, by a terminal notification, or by
subscribing after close — and no Stop is sent while the subscription is
still open.  (In particular a Stop is also sent right after a terminal
notification arrives.) -/
theorem stop_iff_finalized (id : Nat) (command : String) (data : List Val)
    (alreadyClosed : Bool) (trace : List CallEvent) :
    countStops id (subscribeCall id command data alreadyClosed trace).sent
      = (if (subscribeCall id command data alreadyClosed trace).isOpen
          then 0 else 1) := by
  apply foldl_stopInv
  unfold StopInv callInit
  cases alreadyClosed <;> simp [countStops]

/-- C2: if the Remote is closed while a call is outstanding (its subscriber
is still open after some trace), that call's stream receives the
"This remote is closed." error — it does not hang and does not complete
silently — and its subscription is finalized.  Quantifying over the call's
id, command, arguments and prior trace covers every outstanding call, since
each call independently observes the same `closed` subject. -/
theorem close_fails_outstanding_call (id : Nat) (command : String)
    (data : List Val) (t : List CallEvent)
    (h : (subscribeCall id command data false t).isOpen = true) :
    (subscribeCall id command data false (t ++ [CallEvent.close])).events
      = (subscribeCall id command data false t).events
          ++ [StreamEvent.error closedError]
    ∧ (subscribeCall id command data false (t ++ [CallEvent.close])).isOpen
      = false := by
  unfold subscribeCall at *
  rw [List.foldl_append]
  constructor <;> simp [callStep, h]

/-- Witness for `close_fails_outstanding_call` at a concrete outstanding
call. -/
theorem close_fails_outstanding_call_witness :
    (subscribeCall 0 "c" [] false []).isOpen = true
    ∧ ((subscribeCall 0 "c" [] false ([] ++ [CallEvent.close])).events
        = (subscribeCall 0 "c" [] false []).events
            ++ [StreamEvent.error closedError]
      ∧ (subscribeCall 0 "c" [] false ([] ++ [CallEvent.close])).isOpen
        = false) :=
  ⟨by decide, close_fails_outstanding_call 0 "c" [] [] (by decide)⟩

/-- C10: subscribing to a call after `close()` delivers the
"This remote is closed." error immediately — before and regardless of any
later events — yet the Start message and the teardown's Stop message are
both still sent on the (already closed) connection. -/
theorem subscribe_after_close_errors_still_sends (id : Nat) (command : String)
    (data : List Val) (trace : List CallEvent) :
    (subscribeCall id command data true trace).events
      = [StreamEvent.error closedError]
    ∧ (subscribeCall id command data true trace).sent
      = [Request.start id command data, Request.stop id] := by
  unfold subscribeCall
  rw [foldl_closed id trace _ (by simp [callInit])]
  constructor <;> rfl

/-- A property key on the proxy: a string name or a symbol
(symbols distinguished by an index). -/
inductive PropKey where
  | str (name : String)
  | sym (idx : Nat)
deriving DecidableEq, Repr

/-- The dual observable-and-promise value returned by invoking a proxied
method (`ObservableAndPromise` in `wrap.ts`): it records the command and
arguments; no message is sent and no id is drawn until it is subscribed
(stream path) or first awaited (promise path). -/
structure Dual where
  command : String
  data : List Val
deriving DecidableEq, Repr

/-- Invoking the closure returned by the proxy `get` trap (`wrap.ts` lines
46-70): it only constructs the cold observable and the lazy promise and
wraps them in an `ObservableAndPromise`; the list of requests sent during
invocation is empty because the body contains no `connection.send` — sends
happen only inside the observable's subscribe callback. -/
def invoke (command : String) (data : List Val) : Dual × List Request :=
  ({ command := command, data := data }, [])

/-- The proxy `get` trap (`wrap.ts` lines 42-46): a symbol-keyed access
throws; a string-keyed access returns the call closure.  The second
component is the list of requests sent during the lookup, which is empty in
both branches because the trap body contains no `connection.send`. -/
def proxyGet (k : PropKey) :
    Except String (List Val → Dual × List Request) × List Request :=
  match k with
  | PropKey.sym _ => (Except.error "No symbol calls on a proxy.", [])
  | PropKey.str name => (Except.ok (fun data => invoke name data), [])

/-- State of the `incrementingIdGenerator` (`wrap.ts` lines 104-109). -/
structure GenState where
  counter : Nat
deriving DecidableEq, Repr

/-- `incrementingIdGenerator`: returns the current counter and increments
it. -/
def incrementingIdGenerator (g : GenState) : Nat × GenState :=
  (g.counter, { counter := g.counter + 1 })

/-- Subscribing the dual value's stream path: each subscription of the cold
observable draws a fresh correlation id from the generator and then runs
the per-call protocol (`subscribeCall`), whose first action is sending the
Start message with that id. -/
def subscribeDual (d : Dual) (alreadyClosed : Bool) (g : GenState)
    (trace : List CallEvent) : Nat × CallState × GenState :=
  let p := incrementingIdGenerator g
  (p.1, subscribeCall p.1 d.command d.data alreadyClosed trace, p.2)

/-- Awaiting the dual value's promise path: `PLazy.from(() =>
firstValueFrom(observable))` defers until the first `then`, which runs
`firstValueFrom`, i.e. performs its own fresh subscription of the same cold
observable — identical mechanics to the stream path. -/
def awaitDual (d : Dual) (alreadyClosed : Bool) (g : GenState)
    (trace : List CallEvent) : Nat × CallState × GenState :=
  subscribeDual d alreadyClosed g trace

/-- C7: a symbol-keyed property access on the proxy is rejected with the
"No symbol calls on a proxy." error, and property lookup produces no
protocol traffic: neither branch of the `get` trap sends any request (a
string-keyed lookup merely returns the call closure).  A Start request
exists only once the resulting call is actually subscribed. -/
theorem symbol_rejected_lookup_silent (n : Nat) (name : String)
    (data : List Val) :
    (proxyGet (PropKey.sym n)).1 = Except.error "No symbol calls on a proxy."
    ∧ (proxyGet (PropKey.sym n)).2 = []
    ∧ (proxyGet (PropKey.str name)).2 = []
    ∧ (proxyGet (PropKey.str name)).1.isOk = true
    ∧ (subscribeCall 0 name data false []).sent
        = [Request.start 0 name data] := by
  refine ⟨rfl, rfl, rfl, rfl, rfl⟩

/-- C9: invoking a proxied method sends nothing; a Start message is sent
only when the returned dual value is subscribed or first awaited, and the
await path and a stream subscription of the same dual value each draw their
own fresh correlation id (here: successive counter values, hence distinct)
and each send their own Start message carrying that id. -/
theorem invocation_lazy_subscriptions_independent (command : String)
    (data : List Val) (g : GenState) (t₁ t₂ : List CallEvent) :
    (invoke command data).2 = []
    ∧ (awaitDual (invoke command data).1 false g t₁).1 = g.counter
    ∧ (subscribeDual (invoke command data).1 false
        (awaitDual (invoke command data).1 false g t₁).2.2 t₂).1
        = g.counter + 1
    ∧ (awaitDual (invoke command data).1 false g t₁).1
      ≠ (subscribeDual (invoke command data).1 false
          (awaitDual (invoke command data).1 false g t₁).2.2 t₂).1
    ∧ ((awaitDual (invoke command data).1 false g t₁).2.1).sent.head?
        = some (Request.start g.counter command data)
    ∧ ((subscribeDual (invoke command data).1 false
        (awaitDual (invoke command data).1 false g t₁).2.2 t₂).2.1).sent.head?
        = some (Request.start (g.counter + 1) command data) := by
  refine ⟨rfl, rfl, rfl, by simp [awaitDual, subscribeDual,
    incrementingIdGenerator], ?_, ?_⟩
  · exact foldl_sent_head _ _ _ _ rfl
  · exact foldl_sent_head _ _ _ _ rfl

/-- Witness for `invocation_lazy_subscriptions_independent` at concrete
inputs (it has no genuine hypotheses; this instantiates it). -/
theorem invocation_lazy_subscriptions_independent_witness :
    (invoke "c" []).2 = []
    ∧ (awaitDual (invoke "c" []).1 false { counter := 0 } []).1 = 0
    ∧ (subscribeDual (invoke "c" []).1 false
        (awaitDual (invoke "c" []).1 false { counter := 0 } []).2.2 []).1
        = 0 + 1
    ∧ (awaitDual (invoke "c" []).1 false { counter := 0 } []).1
      ≠ (subscribeDual (invoke "c" []).1 false
          (awaitDual (invoke "c" []).1 false { counter := 0 } []).2.2 []).1
    ∧ ((awaitDual (invoke "c" []).1 false { counter := 0 } []).2.1).sent.head?
        = some (Request.start 0 "c" [])
    ∧ ((subscribeDual (invoke "c" []).1 false
        (awaitDual (invoke "c" []).1 false { counter := 0 } []).2.2
        []).2.1).sent.head?
        = some (Request.start (0 + 1) "c" []) :=
  invocation_lazy_subscriptions_independent "c" [] { counter := 0 } [] []

/-- Association-list lookup, modelling `Map.get` (JS `Map`). -/
def mapGet {K V : Type} [DecidableEq K] (k : K) : List (K × V) → Option V
  | [] => none
  | (k₂, v) :: rest => if k₂ = k then some v else mapGet k rest

/-- Association-list insert-or-replace, modelling `Map.set`. -/
def mapSet {K V : Type} [DecidableEq K] (k : K) (v : V) :
    List (K × V) → List (K × V)
  | [] => [(k, v)]
  | (k₂, v₂) :: rest =>
    if k₂ = k then (k, v) :: rest else (k₂, v₂) :: mapSet k v rest

/-- Association-list removal, modelling `Map.delete`. -/
def mapDelete {K V : Type} [DecidableEq K] (k : K) :
    List (K × V) → List (K × V)
  | [] => []
  | (k₂, v₂) :: rest =>
    if k₂ = k then mapDelete k rest else (k₂, v₂) :: mapDelete k rest

theorem mapGet_mapDelete_self {K V : Type} [DecidableEq K] (k : K)
    (l : List (K × V)) : mapGet k (mapDelete k l) = none := by
  induction l with
  | nil => rfl
  | cons p rest ih =>
    obtain ⟨k₂, v₂⟩ := p
    by_cases h : k₂ = k
    · simpa [mapDelete, h] using ih
    · simpa [mapDelete, mapGet, h] using ih

/-- Backend lifecycle events consumed by `exposeMigrating`
(`coordinator.backEnd`): a backend is added (with its id; the channel and
the derived target are irrelevant to the bookkeeping modelled here) or
removed. -/
inductive BackendAction where
  | added (id : String)
  | removed (id : String)
deriving DecidableEq, Repr

/-- State of `exposeMigrating` (`migrating.ts` lines 18-36): whether the
subscription to `coordinator.backEnd` is still listening, the `clients` map
from backend id to the index of its receiver subscription, and for every
receiver subscription ever created whether it is still subscribed. -/
structure ExposeState where
  listening : Bool
  clients : List (String × Nat)
  subs : List Bool
deriving DecidableEq, Repr

def exposeInit : ExposeState :=
  { listening := true, clients := [], subs := [] }

/-- One backend action: on "added", create a new `DirectReceiver`, subscribe
it, and record the subscription under the backend id; otherwise look the id
up, unsubscribe the receiver subscription if present, and delete the map
entry. -/
def exposeStep (s : ExposeState) (a : BackendAction) : ExposeState :=
  if s.listening then
    match a with
    | BackendAction.added id =>
        { s with clients := mapSet id s.subs.length s.clients
                 subs := s.subs ++ [true] }
    | BackendAction.removed id =>
        match mapGet id s.clients with
        | some idx =>
            { s with clients := mapDelete id s.clients
                     subs := s.subs.set idx false }
        | none => { s with clients := mapDelete id s.clients }
  else s

/-- `exposeMigrating`: process the stream of backend actions. -/
def exposeMigrating (actions : List BackendAction) : ExposeState :=
  actions.foldl exposeStep exposeInit

/-- Cancelling the subscription returned by `exposeMigrating`: the value
returned to the caller is exactly the subscription created by
`config.coordinator.backEnd.subscribe(...)`, so unsubscribing it only stops
listening to backend actions; no teardown touching the `clients` map or the
receiver subscriptions is registered anywhere. -/
def exposeUnsubscribe (s : ExposeState) : ExposeState :=
  { s with listening := false }

/-- C3 fails on the code: after adding backend "w1" and cancelling the
subscription returned by `exposeMigrating`, the entry for "w1" is still in
the `clients` map and its receiver subscription (index 0) is still
subscribed — nothing tears the per-backend exposers down, contradicting the
claim (and the spec's requirement) that cancellation tears down every
still-active exposer. -/
theorem expose_cancel_leaks_receivers :
    (exposeUnsubscribe (exposeMigrating [BackendAction.added "w1"])).clients
      = [("w1", 0)]
    ∧ (exposeUnsubscribe (exposeMigrating [BackendAction.added "w1"])).subs
      = [true]
    ∧ (exposeUnsubscribe (exposeMigrating [BackendAction.added "w1"])).listening
      = false := by
  refine ⟨rfl, rfl, rfl⟩

/-- `RegistryOptions` (`migrating.ts` lines 198-202): `allowIncorrectIds`
defaults to unset (false). -/
structure RegistryOptions where
  allowIncorrectIds : Bool := false
deriving DecidableEq, Repr

/-- Events driving the `registry` combinator: the two `RegistryAction`
shapes (`add` carries the key and a handle naming its source observable;
`del` carries the key), plus the behaviour of the registered sources (a
source emits a value, completes, or errors). -/
inductive RegEvent where
  | add (key : Nat) (src : Nat)
  | del (key : Nat)
  | emit (src : Nat) (v : Val)
  | srcComplete (src : Nat)
  | srcError (src : Nat) (e : String)
deriving DecidableEq, Repr

/-- Events on the merged output stream: a tagged pair, or a stream error. -/
inductive RegOut where
  | next (key : Nat) (v : Val)
  | error (e : String)
deriving DecidableEq, Repr

/-- State of the `registry` combinator (`migrating.ts` lines 213-245):
`entries` is the `observables` map from key to the stored subscription
(identified by its source handle); `active` records which sources are
currently subscribed and under which key their emissions are tagged;
`out` is the merged output so far; `failed` is set once the merged stream
has errored (after which everything is torn down). -/
structure RegState where
  entries : List (Nat × Nat)
  active : List (Nat × Nat)
  out : List RegOut
  failed : Bool
deriving DecidableEq, Repr

def regInit : RegState :=
  { entries := [], active := [], out := [], failed := false }

/-- The strict-mode error message (`migrating.ts` line 237). -/
def registryRemoveError : String :=
  "Tried to remove a non existent observable from a registry."

/-- One step of the registry.  On `add`, subscribe the source, tag its
emissions with the key, and store the subscription under the key; the stored
subscription is the inner subscriber, whose finalizers both unsubscribe the
source and delete the map entry.  On `del` with the key present, unsubscribe
the stored subscription, which runs those finalizers (source unsubscribed,
entry removed); with the key absent, strict mode merges a `throwError` into
the output (erroring the merged stream and tearing everything down), lenient
mode is a silent no-op (`EMPTY`).  A source emission is tagged and forwarded
while its subscription is active; a source completion runs the inner
finalizers; a source error propagates through `mergeMap` and errors the
whole merged stream. -/
def regStep (options : RegistryOptions) (s : RegState) (e : RegEvent) :
    RegState :=
  if s.failed then s else
  match e with
  | RegEvent.add key src =>
      { s with entries := mapSet key src s.entries
               active := mapSet src key s.active }
  | RegEvent.del key =>
      match mapGet key s.entries with
      | some src =>
          { s with entries := mapDelete key s.entries
                   active := mapDelete src s.active }
      | none =>
          if options.allowIncorrectIds then s
          else { s with failed := true
                        out := s.out ++ [RegOut.error registryRemoveError]
                        entries := []
                        active := [] }
  | RegEvent.emit src v =>
      match mapGet src s.active with
      | some key => { s with out := s.out ++ [RegOut.next key v] }
      | none => s
  | RegEvent.srcComplete src =>
      match mapGet src s.active with
      | some key =>
          { s with entries := mapDelete key s.entries
                   active := mapDelete src s.active }
      | none => s
  | RegEvent.srcError src err =>
      match mapGet src s.active with
      | some _ =>
          { s with failed := true
                   out := s.out ++ [RegOut.error err]
                   entries := []
                   active := [] }
      | none => s

/-- The `registry` combinator: process the interleaved trace of registry
actions and source behaviour. -/
def registry (options : RegistryOptions) (events : List RegEvent) :
    RegState :=
  events.foldl (regStep options) regInit

/-- C4: a `Delete` action whose key is currently in the map cancels that
key's stored subscription (its source is no longer active, so it can emit
nothing further) and removes the mapping entry for the key — both effects
of running the stored subscription's finalizers. -/
theorem registry_delete_present (options : RegistryOptions) (s : RegState)
    (key src : Nat) (hf : s.failed = false)
    (h : mapGet key s.entries = some src) :
    mapGet key (regStep options s (RegEvent.del key)).entries = none
    ∧ mapGet src (regStep options s (RegEvent.del key)).active = none := by
  simp [regStep, hf, h, mapGet_mapDelete_self]

/-- Witness for `registry_delete_present`: add key 1 with source 10, then
delete key 1. -/
theorem registry_delete_present_witness :
    ((registry {} [RegEvent.add 1 10]).failed = false
      ∧ mapGet 1 (registry {} [RegEvent.add 1 10]).entries = some 10)
    ∧ (mapGet 1 (regStep {} (registry {} [RegEvent.add 1 10])
          (RegEvent.del 1)).entries = none
      ∧ mapGet 10 (regStep {} (registry {} [RegEvent.add 1 10])
          (RegEvent.del 1)).active = none) :=
  ⟨⟨by decide, by decide⟩,
    registry_delete_present {} (registry {} [RegEvent.add 1 10]) 1 10
      (by decide) (by decide)⟩

/-- C5: a `Delete` whose key is not in the map (in particular a key never
added): in strict mode (`allowIncorrectIds` unset) the merged stream errors
with the registry removal error; in lenient mode (`allowIncorrectIds` set)
the state is entirely unchanged — no emission and no error. -/
theorem registry_delete_absent (s : RegState) (key : Nat)
    (hf : s.failed = false) (h : mapGet key s.entries = none) :
    ((regStep { allowIncorrectIds := false } s (RegEvent.del key)).out
        = s.out ++ [RegOut.error registryRemoveError]
      ∧ (regStep { allowIncorrectIds := false } s (RegEvent.del key)).failed
        = true)
    ∧ regStep { allowIncorrectIds := true } s (RegEvent.del key) = s := by
  refine ⟨⟨?_, ?_⟩, ?_⟩ <;> simp [regStep, hf, h]

/-- Witness for `registry_delete_absent`: delete key 1 from the empty
registry. -/
theorem registry_delete_absent_witness :
    (regInit.failed = false ∧ mapGet 1 regInit.entries = none)
    ∧ (((regStep { allowIncorrectIds := false } regInit (RegEvent.del 1)).out
          = regInit.out ++ [RegOut.error registryRemoveError]
        ∧ (regStep { allowIncorrectIds := false } regInit
            (RegEvent.del 1)).failed = true)
      ∧ regStep { allowIncorrectIds := true } regInit (RegEvent.del 1)
        = regInit) :=
  ⟨⟨by decide, by decide⟩,
    registry_delete_absent regInit 1 (by decide) (by decide)⟩

/-- C6: adding key 1 with a source that emits 1, 2, 3, then deleting key 1,
yields exactly the tagged pairs (1,1), (1,2), (1,3) on the merged stream in
emission order, and nothing further for that key even though the source
would have emitted 4 and 5; the merged stream has not errored. -/
theorem registry_add_emit_delete_scenario :
    (registry {}
        [RegEvent.add 1 100, RegEvent.emit 100 1, RegEvent.emit 100 2,
          RegEvent.emit 100 3, RegEvent.del 1, RegEvent.emit 100 4,
          RegEvent.emit 100 5]).out
      = [RegOut.next 1 1, RegOut.next 1 2, RegOut.next 1 3]
    ∧ (registry {}
        [RegEvent.add 1 100, RegEvent.emit 100 1, RegEvent.emit 100 2,
          RegEvent.emit 100 3, RegEvent.del 1, RegEvent.emit 100 4,
          RegEvent.emit 100 5]).failed = false := by
  refine ⟨by decide, by decide⟩

/-- Asynchronous events in the life of one `observeWebLock` subscription:
the lock manager grants the pending request, the request fails with an
error, or the subscriber unsubscribes. -/
inductive LockEvent where
  | grant
  | reject (e : String)
  | unsub
deriving DecidableEq, Repr

/-- State of one `observeWebLock` subscription (`migrating.ts` lines
136-151, over `acquireWebLock`, lines 121-131): whether the stream
subscriber is still open, whether the `AbortController` has been aborted,
whether the lock promise has settled and whether it resolved (`granted`),
whether the lock is currently held and whether it has been released, the
number of `next` emissions delivered, the error delivered (if any), and
whether the stream completed (the subscribe callback never calls
`subscriber.complete`, so this stays false). -/
structure LockState where
  subscribed : Bool
  aborted : Bool
  settled : Bool
  granted : Bool
  held : Bool
  released : Bool
  emitted : Nat
  errored : Option String
  completed : Bool
deriving DecidableEq, Repr

def lockInit : LockState :=
  { subscribed := true, aborted := false, settled := false, granted := false
    held := false, released := false, emitted := 0, errored := none
    completed := false }

/-- One asynchronous step.  `grant`: per the Web Locks contract a request
whose abort signal has fired is never granted, and a settled promise cannot
settle again; otherwise the lock is acquired and `lock.then(() =>
subscriber.next())` emits once if the subscriber is still open.  `reject`:
the `catch` handler calls `subscriber.error`, which closes the subscriber
and runs the teardown (abort + release-on-grant, the latter a no-op on a
rejected promise).  `unsub`: the teardown aborts the controller — so a
still-pending request is rejected and never granted — and chains
`lock.then(release => release())`, so a lock already granted is released. -/
def lockStep (s : LockState) (e : LockEvent) : LockState :=
  match e with
  | LockEvent.grant =>
      if s.aborted || s.settled then s
      else
        { s with settled := true, granted := true, held := true
                 emitted := if s.subscribed then s.emitted + 1 else s.emitted }
  | LockEvent.reject err =>
      if s.settled then s
      else if s.subscribed then
        { s with settled := true, subscribed := false, aborted := true
                 errored := some err }
      else { s with settled := true }
  | LockEvent.unsub =>
      if s.subscribed then
        if s.granted then
          { s with subscribed := false, aborted := true, held := false
                   released := true }
        else
          { s with subscribed := false, aborted := true, settled := true }
      else s

/-- `observeWebLock`: one subscription's behaviour over a trace of
asynchronous events. -/
def observeWebLock (events : List LockEvent) : LockState :=
  events.foldl lockStep lockInit

/-- An aborted, settled, unsubscribed and ungranted subscription is inert:
in particular the lock can never be granted any more. -/
theorem lockStep_inert (s : LockState) (e : LockEvent)
    (ha : s.aborted = true) (hs : s.subscribed = false)
    (ht : s.settled = true) : lockStep s e = s := by
  cases e <;> simp [lockStep, ha, hs, ht]

theorem lock_foldl_inert (events : List LockEvent) (s : LockState)
    (ha : s.aborted = true) (hs : s.subscribed = false)
    (ht : s.settled = true) : events.foldl lockStep s = s := by
  induction events with
  | nil => rfl
  | cons e rest ih => rw [List.foldl_cons, lockStep_inert s e ha hs ht]; exact ih

/-- Invariant giving at-most-one emission and completion-freeness. -/
def LockInv (s : LockState) : Prop :=
  s.emitted ≤ 1 ∧ (s.settled = false → s.emitted = 0) ∧ s.completed = false

theorem lockStep_inv (s : LockState) (e : LockEvent) (h : LockInv s) :
    LockInv (lockStep s e) := by
  obtain ⟨h₁, h₂, h₃⟩ := h
  cases e with
  | grant =>
    by_cases hg : (s.aborted || s.settled) = true
    · simpa [lockStep, hg] using ⟨h₁, h₂, h₃⟩
    · have hset : s.settled = false := by
        cases hx : s.settled
        · rfl
        · simp [hx] at hg
      have h0 : s.emitted = 0 := h₂ hset
      simp only [lockStep, hg, if_false]
      refine ⟨?_, by simp, h₃⟩
      cases hsub : s.subscribed <;> simp [hsub, h0]
  | reject err =>
    by_cases ht : s.settled = true
    · simpa [lockStep, ht] using ⟨h₁, h₂, h₃⟩
    · have ht' : s.settled = false := by
        cases hx : s.settled
        · rfl
        · exact absurd hx ht
      cases hsub : s.subscribed <;>
        simpa [lockStep, ht', hsub] using ⟨h₁, by simp [h₂ ht'], h₃⟩
  | unsub =>
    cases hsub : s.subscribed with
    | false => simpa [lockStep, hsub] using ⟨h₁, h₂, h₃⟩
    | true =>
      cases hg : s.granted with
      | true => simpa [lockStep, hsub, hg] using ⟨h₁, h₂, h₃⟩
      | false =>
        refine ⟨?_, ?_, ?_⟩
        · simpa [lockStep, hsub, hg] using h₁
        · simp [lockStep, hsub, hg]
        · simpa [lockStep, hsub, hg] using h₃

theorem lock_foldl_inv (events : List LockEvent) (s : LockState)
    (h : LockInv s) : LockInv (events.foldl lockStep s) := by
  induction events generalizing s with
  | nil => simpa using h
  | cons e rest ih => exact ih _ (lockStep_inv s e h)

/-- C8: the stream-mode lock acquisition emits exactly once, upon
acquisition (one emission when granted; never more than one over any event
trace); cancelling the subscription before acquisition aborts the pending
request, so the lock is never granted and never held afterwards (not
leaked); cancelling after acquisition releases the lock; and a failure to
acquire is delivered as a stream error, while the stream never completes
(so a failure is never a silent empty completion). -/
theorem observeWebLock_contract (e : String) (evs : List LockEvent) :
    (observeWebLock [LockEvent.grant]).emitted = 1
    ∧ (observeWebLock evs).emitted ≤ 1
    ∧ (observeWebLock (LockEvent.unsub :: evs)).granted = false
    ∧ (observeWebLock (LockEvent.unsub :: evs)).held = false
    ∧ (observeWebLock [LockEvent.grant, LockEvent.unsub]).held = false
    ∧ (observeWebLock [LockEvent.grant, LockEvent.unsub]).released = true
    ∧ (observeWebLock [LockEvent.reject e]).errored = some e
    ∧ (observeWebLock evs).completed = false := by
  have hinit : LockInv lockInit := by
    refine ⟨by simp [lockInit], fun _ => rfl, rfl⟩
  have hinv := lock_foldl_inv evs lockInit hinit
  have hunsub :
      observeWebLock (LockEvent.unsub :: evs)
        = lockStep lockInit LockEvent.unsub := by
    unfold observeWebLock
    rw [List.foldl_cons]
    exact lock_foldl_inert evs _ rfl rfl rfl
  refine ⟨rfl, hinv.1, ?_, ?_, rfl, rfl, ?_, hinv.2.2⟩
  · rw [hunsub]; rfl
  · rw [hunsub]; rfl
  · simp [observeWebLock, lockStep, lockInit]

end ObservableWorker
